import Mathlib

/-
Verification development for the sas-r-hybrid-clinical-pipeline repository.

Two scripts are embedded shallowly:
  - src/automation/generate_define_xml.py : the Define-XML metadata assembler
    (create_rs_domain and the serialization step of
    generate_define_xml_for_recist);
  - src/validation/validate_with_core.py : the SDTM conformance checker
    (validate_sdtm_domain).

Pure construction logic is translated to Lean functions; file I/O and
exceptions are made explicit (writes that can raise become Bool parameters,
exceptions become Except values). The pandas load of the dataset file is
external to the repository, so the loaded dataset, and whether loading
raised, is a parameter of the checker model.
-/

/-! ## Data model of the assembler (generate_define_xml.py) -/

/-- One record of the fixed rs_variables list in create_rs_domain:
name, label, datatype, length, core, origin, comment. -/
structure RSVar where
  name : String
  label : String
  datatype : String
  varLength : Nat
  core : String
  origin : String
  comment : String
deriving DecidableEq

/-- The fixed rs_variables list of create_rs_domain, verbatim from the source. -/
def rs_variables : List RSVar :=
  [ { name := "STUDYID", label := "Study Identifier", datatype := "text",
      varLength := 12, core := "Req", origin := "Assigned",
      comment := "Unique identifier for the study" },
    { name := "DOMAIN", label := "Domain Abbreviation", datatype := "text",
      varLength := 2, core := "Req", origin := "Assigned",
      comment := "Two-character abbreviation for the domain (RS)" },
    { name := "USUBJID", label := "Unique Subject Identifier", datatype := "text",
      varLength := 40, core := "Req", origin := "Assigned",
      comment := "Identifier used to uniquely identify a subject across all studies" },
    { name := "RSSEQ", label := "Sequence Number", datatype := "integer",
      varLength := 8, core := "Req", origin := "Assigned",
      comment := "Sequence number for ordering records within a subject" },
    { name := "RSTESTCD", label := "Response Assessment Short Name", datatype := "text",
      varLength := 8, core := "Req", origin := "Assigned",
      comment := "Short name for tumor response assessment (e.g., TUMIDENT, OVR)" },
    { name := "RSTEST", label := "Response Assessment Name", datatype := "text",
      varLength := 40, core := "Req", origin := "Assigned",
      comment := "Full name of tumor response assessment" },
    { name := "RSCAT", label := "Category for Response", datatype := "text",
      varLength := 40, core := "Perm", origin := "Assigned",
      comment := "Category grouping for response assessments (e.g., RECIST 1.1)" },
    { name := "RSORRES", label := "Result in Original Units", datatype := "text",
      varLength := 200, core := "Exp", origin := "CRF",
      comment := "Result as collected on CRF or EDC" },
    { name := "RSSTRESC", label := "Character Result/Finding in Std Format", datatype := "text",
      varLength := 200, core := "Exp", origin := "Derived",
      comment := "Standardized result (CR, PR, SD, PD for RECIST)" },
    { name := "RSSTRESN", label := "Numeric Result/Finding in Standard Units", datatype := "float",
      varLength := 8, core := "Exp", origin := "Derived",
      comment := "Numeric representation of result if applicable" },
    { name := "VISITNUM", label := "Visit Number", datatype := "integer",
      varLength := 8, core := "Exp", origin := "Assigned",
      comment := "Numeric identifier for visit" },
    { name := "VISIT", label := "Visit Name", datatype := "text",
      varLength := 40, core := "Perm", origin := "Assigned",
      comment := "Protocol-defined description of visit" },
    { name := "RSDTC", label := "Date/Time of Response Assessment", datatype := "datetime",
      varLength := 20, core := "Exp", origin := "CRF",
      comment := "Date/time of assessment in ISO8601 format" },
    { name := "RSDY", label := "Study Day of Response Assessment", datatype := "integer",
      varLength := 8, core := "Perm", origin := "Derived",
      comment := "Study day relative to reference start date" } ]

/-- An ODM ItemDef as built in the loop of create_rs_domain. -/
structure ItemDef where
  OID : String
  Name : String
  DataType : String
  defLength : Nat
  SASFieldName : String
  SDSVarName : String
  OriginType : String
  Label : String
  Comment : String
deriving DecidableEq

/-- An ODM ItemRef as built in the loop of create_rs_domain. -/
structure ItemRef where
  ItemOID : String
  Mandatory : String
  OrderNumber : Nat
  Role : String
deriving DecidableEq

/-- The ItemDef built for one variable record (body of the loop). -/
def mkItemDef (v : RSVar) : ItemDef :=
  { OID := "IT.RS." ++ v.name
  , Name := v.name
  , DataType := v.datatype
  , defLength := v.varLength
  , SASFieldName := v.name
  , SDSVarName := v.name
  , OriginType := v.origin
  , Label := v.label
  , Comment := v.comment }

/-- The ItemRef built for one variable record at 1-based position idx
(body of the loop): Mandatory is Yes exactly when core is Req, OrderNumber
is the enumeration index. -/
def mkItemRef (idx : Nat) (v : RSVar) : ItemRef :=
  { ItemOID := "IT.RS." ++ v.name
  , Mandatory := if v.core = "Req" then "Yes" else "No"
  , OrderNumber := idx
  , Role := v.core }

/-- The loop of create_rs_domain over an arbitrary variable list:
for idx, var in enumerate(vars, start=1), appending one ItemRef per record. -/
def buildItemRefs : Nat → List RSVar → List ItemRef
  | _, [] => []
  | idx, v :: vs => mkItemRef idx v :: buildItemRefs (idx + 1) vs

/-- The same loop's ItemDef side: one ItemDef appended per record, in order. -/
def buildItemDefs (vars : List RSVar) : List ItemDef :=
  vars.map mkItemDef

/-- The RS ItemGroupDef assembled by create_rs_domain, with its fixed scalar
attributes and the ItemRef list produced by the loop. -/
structure RSDomain where
  OID : String
  Name : String
  Repeating : String
  IsReferenceData : String
  SASDatasetName : String
  Domain : String
  Purpose : String
  Structure : String
  DomainKeys : String
  Label : String
  ClassName : String
  ItemRef : List ItemRef
deriving DecidableEq

/-- create_rs_domain: builds the RS domain record and its ItemRef list from
the fixed rs_variables list. -/
def create_rs_domain : RSDomain :=
  { OID := "IG.RS"
  , Name := "RS"
  , Repeating := "Yes"
  , IsReferenceData := "No"
  , SASDatasetName := "RS"
  , Domain := "RS"
  , Purpose := "Tabulation"
  , Structure := "One record per tumor response assessment per subject"
  , DomainKeys := "STUDYID, USUBJID, RSTESTCD, RSSEQ"
  , Label := "Disease Response"
  , ClassName := "Findings"
  , ItemRef := buildItemRefs 1 rs_variables }

/-! ## Serialization step of generate_define_xml_for_recist -/

/-- Observable outcome of the serialization step: which writes were attempted,
which succeeded, and the boolean the function returns. -/
structure SerializationOutcome where
  xmlAttempted : Bool
  xmlSucceeded : Bool
  jsonAttempted : Bool
  jsonSucceeded : Bool
  returnValue : Bool
deriving DecidableEq

/-- The serialization step of generate_define_xml_for_recist. The XML write is
tried first; if it raises, the except clause returns False at once, so the JSON
write is never reached. Otherwise the JSON write is tried; if it raises, the
except clause only prints a warning and execution continues to return True. -/
def generate_define_xml_for_recist (xmlRaises jsonRaises : Bool) : SerializationOutcome :=
  if xmlRaises then
    { xmlAttempted := true, xmlSucceeded := false
    , jsonAttempted := false, jsonSucceeded := false
    , returnValue := false }
  else
    { xmlAttempted := true, xmlSucceeded := true
    , jsonAttempted := true, jsonSucceeded := !jsonRaises
    , returnValue := true }

/-! ## Data model of the checker (validate_with_core.py) -/

/-- One entry of the checker's errors or warnings list:
a dict with rule_id, message and severity. -/
structure ErrorEntry where
  rule_id : String
  message : String
  severity : String
deriving DecidableEq

/-- A loaded tabular dataset as the checker observes it: the column-name list
(df.columns) and the rows, each row an association list from column name to
cell value. -/
structure Dataset where
  cols : List String
  rows : List (List (String × String))
deriving DecidableEq

/-- Cell access df[c] on one row (defaults to the empty string; the checker
only reads a column after testing its presence in cols). -/
def rowVal (r : List (String × String)) (c : String) : String :=
  (r.lookup c).getD ""

/-- Exceptions that the shallow embedding distinguishes inside the checker's
try block: a pandas load failure, and the NameError a reference to an unbound
local name would raise. -/
inductive PyExc
  | loadError
  | nameError
deriving DecidableEq

/-- The required_vars list bound inside the domain_code == RS branch. -/
def required_vars_RS : List String :=
  ["STUDYID", "DOMAIN", "USUBJID", "RSSEQ", "RSTESTCD", "RSTEST"]

/-- The SDTM001 error appended for one missing required variable. -/
def missingVarError (v : String) : ErrorEntry :=
  { rule_id := "SDTM001"
  , message := "Required variable " ++ v ++ " is missing"
  , severity := "error" }

/-- The single SDTM002 error appended when some row's DOMAIN value is not RS. -/
def domainValueError : ErrorEntry :=
  { rule_id := "SDTM002"
  , message := "DOMAIN variable must equal \"RS\""
  , severity := "error" }

/-- The loop over required_vars: one SDTM001 error per required variable
absent from df.columns, in list order. -/
def missingVarErrors (df : Dataset) : List ErrorEntry :=
  (required_vars_RS.filter (fun v => !(df.cols.contains v))).map missingVarError

/-- The DOMAIN fixed-value check: only runs when a DOMAIN column exists, and
appends exactly one SDTM002 error when not every row's DOMAIN value is RS. -/
def domainValueErrors (df : Dataset) : List ErrorEntry :=
  if "DOMAIN" ∈ df.cols then
    if ¬ (∀ r ∈ df.rows, rowVal r "DOMAIN" = "RS") then [domainValueError] else []
  else []

/-- The errors list accumulated by the basic conformance checks: both checks
live inside the domain_code == RS branch, so any other code accumulates
nothing. -/
def rsChecks (df : Dataset) (domain_code : String) : List ErrorEntry :=
  if domain_code = "RS" then missingVarErrors df ++ domainValueErrors df else []

/-- The Python conditional expression computing total_rules_checked:
len(required_vars) if domain_code == RS else 0. The name required_vars is
bound (rvBound = some vars) only when the RS branch executed; a conditional
expression evaluates only its selected arm, and evaluating len of an unbound
name would raise NameError. -/
def totalRulesChecked (domain_code : String) (rvBound : Option (List String)) :
    Except PyExc Nat :=
  if domain_code = "RS" then
    match rvBound with
    | some vs => Except.ok vs.length
    | none => Except.error PyExc.nameError
  else Except.ok 0

/-- The JSON report assembled by the checker. -/
structure Report where
  domain : String
  file : String
  records : Nat
  total_rules_checked : Nat
  errors : Nat
  warnings : Nat
  error_details : List ErrorEntry
  warning_details : List ErrorEntry
deriving DecidableEq

/-- The body of the checker's try block after a successful load: run the
basic checks, evaluate the report dict (where the total_rules_checked
conditional expression can in principle raise), and return the report
together with the value of len(errors) == 0. -/
def tryBody (df : Dataset) (domain_path domain_code : String) :
    Except PyExc (Report × Bool) :=
  let errors := rsChecks df domain_code
  let warnings : List ErrorEntry := []
  let rvBound := if domain_code = "RS" then some required_vars_RS else none
  match totalRulesChecked domain_code rvBound with
  | Except.error e => Except.error e
  | Except.ok trc =>
      Except.ok
        ({ domain := domain_code
         , file := domain_path
         , records := df.rows.length
         , total_rules_checked := trc
         , errors := errors.length
         , warnings := warnings.length
         , error_details := errors
         , warning_details := warnings }, errors.isEmpty)

/-- Outcome of one call to validate_sdtm_domain: which early return was taken,
or the completed run with its written report and returned boolean. -/
inductive CheckerResult
  | skippedTrue
  | failedNoReport
  | caughtFalse
  | completed (passed : Bool) (report : Report)
deriving DecidableEq

/-- The boolean the function returns in each outcome. -/
def CheckerResult.passed : CheckerResult → Bool
  | CheckerResult.skippedTrue => true
  | CheckerResult.failedNoReport => false
  | CheckerResult.caughtFalse => false
  | CheckerResult.completed b _ => b

/-- The report written to outputs/validation, when the run reached the write. -/
def CheckerResult.reportWritten : CheckerResult → Option Report
  | CheckerResult.completed _ r => some r
  | _ => none

/-- validate_sdtm_domain. Parameters make the environment explicit:
core_available is the CORE_AVAILABLE import flag, fileOnDisk is whether
Path(domain_path).exists(), and load is the result of the pandas read
(none when it raised). The codomain is Except PyExc so that the except
clause's catching of every exception is a provable property rather than a
typing accident: an uncaught exception would surface as Except.error. -/
def validate_sdtm_domain (core_available fileOnDisk : Bool)
    (domain_path domain_code : String) (load : Option Dataset) :
    Except PyExc CheckerResult :=
  if !core_available then Except.ok CheckerResult.skippedTrue
  else if !fileOnDisk then Except.ok CheckerResult.failedNoReport
  else
    match load with
    | none => Except.ok CheckerResult.caughtFalse
    | some df =>
        match tryBody df domain_path domain_code with
        | Except.error _ => Except.ok CheckerResult.caughtFalse
        | Except.ok (rep, b) => Except.ok (CheckerResult.completed b rep)

/-! ## Helper lemmas -/

/-- The loop emits one ItemRef per input record. -/
theorem buildItemRefs_length (i : Nat) (vs : List RSVar) :
    (buildItemRefs i vs).length = vs.length := by
  induction vs generalizing i with
  | nil => rfl
  | cons v vs ih => simp [buildItemRefs, ih]

/-- The order numbers emitted by the loop started at i are i, i+1, ... . -/
theorem buildItemRefs_map_orderNumber (i : Nat) (vs : List RSVar) :
    (buildItemRefs i vs).map (fun r => r.OrderNumber) = List.range' i vs.length := by
  induction vs generalizing i with
  | nil => simp [buildItemRefs]
  | cons v vs ih => simp [buildItemRefs, mkItemRef, List.range'_succ, ih]

/-- Every entry produced by the required-variable loop carries rule id
SDTM001, never SDTM002. -/
theorem missingVarErrors_not_sdtm002 (df : Dataset) :
    ∀ e ∈ missingVarErrors df, e.rule_id ≠ "SDTM002" := by
  intro e he
  simp only [missingVarErrors, List.mem_map] at he
  obtain ⟨v, _, rfl⟩ := he
  simp [missingVarError]

/-- Shape of a completed RS run: the outer guards pass, total_rules_checked
evaluates to 6, the warnings list is empty, and the errors list is exactly
the output of the basic checks. -/
theorem validate_rs_eq (df : Dataset) (domain_path : String) :
    validate_sdtm_domain true true domain_path "RS" (some df) =
      Except.ok (CheckerResult.completed (rsChecks df "RS").isEmpty
        { domain := "RS", file := domain_path, records := df.rows.length,
          total_rules_checked := 6, errors := (rsChecks df "RS").length,
          warnings := 0, error_details := rsChecks df "RS", warning_details := [] }) := rfl

/-- Shape of a completed non-RS run: no check runs, the conditional
expression takes its else arm without evaluating required_vars, and the run
completes with an empty error list. -/
theorem validate_non_rs_eq (domain_path domain_code : String) (df : Dataset)
    (h : domain_code ≠ "RS") :
    validate_sdtm_domain true true domain_path domain_code (some df) =
      Except.ok (CheckerResult.completed true
        { domain := domain_code, file := domain_path, records := df.rows.length,
          total_rules_checked := 0, errors := 0, warnings := 0,
          error_details := [], warning_details := [] }) := by
  simp [validate_sdtm_domain, tryBody, rsChecks, totalRulesChecked, h]

/-- The checker never lets an exception escape: on every input the result is
an Except.ok value. -/
theorem validate_never_raises (core_available fileOnDisk : Bool)
    (domain_path domain_code : String) (load : Option Dataset) :
    ∃ r, validate_sdtm_domain core_available fileOnDisk domain_path domain_code load =
      Except.ok r := by
  cases core_available with
  | false => exact ⟨CheckerResult.skippedTrue, rfl⟩
  | true =>
    cases fileOnDisk with
    | false => exact ⟨CheckerResult.failedNoReport, rfl⟩
    | true =>
      cases load with
      | none => exact ⟨CheckerResult.caughtFalse, rfl⟩
      | some df =>
        simp only [validate_sdtm_domain]
        cases h : tryBody df domain_path domain_code with
        | error e => exact ⟨CheckerResult.caughtFalse, by simp [h]⟩
        | ok rb => exact ⟨CheckerResult.completed rb.2 rb.1, by simp [h]⟩

/-! ## Claim theorems -/

/-- C1 counterexample: in the run where the XML write raises and the JSON
write would succeed, the JSON write is not attempted — the claim that a
failure of the XML write still lets the JSON write be attempted is false. -/
theorem C1_counterexample_xml_failure_skips_json :
    (generate_define_xml_for_recist true false).jsonAttempted = false ∧
    (generate_define_xml_for_recist true false).returnValue = false := by decide

/-- C1 (amended): independence of the two serializations holds in one
direction only. When the XML write succeeds, the JSON write is attempted and
the run returns True whether or not the JSON write raises; but when the XML
write raises, the function returns False at once and the JSON write is never
attempted. -/
theorem C1_serialization_one_way_independence :
    ∀ jsonRaises : Bool,
      ((generate_define_xml_for_recist false jsonRaises).xmlAttempted = true ∧
       (generate_define_xml_for_recist false jsonRaises).jsonAttempted = true ∧
       (generate_define_xml_for_recist false jsonRaises).returnValue = true) ∧
      ((generate_define_xml_for_recist true jsonRaises).jsonAttempted = false ∧
       (generate_define_xml_for_recist true jsonRaises).returnValue = false) := by decide

/-- A loadable non-RS dataset used to exercise the checker on a domain code
other than RS. -/
def dfLB : Dataset := { cols := ["LBTESTCD"], rows := [[("LBTESTCD", "ALT")]] }

/-- C2 counterexample: on an existing, loadable dataset with domain code LB,
the checker does not fail while computing total_rules_checked; the run
completes with total_rules_checked = 0 and returns True. The conditional
expression evaluates only its selected arm, so the unbound name
required_vars is never touched for non-RS codes. -/
theorem C2_counterexample_non_rs_completes :
    validate_sdtm_domain true true "outputs/sdtm/lb.xpt" "LB" (some dfLB) =
      Except.ok (CheckerResult.completed true
        { domain := "LB", file := "outputs/sdtm/lb.xpt", records := 1,
          total_rules_checked := 0, errors := 0, warnings := 0,
          error_details := [], warning_details := [] }) := rfl

/-- C2 (amended): for every domain code other than RS, the checker does not
raise NameError at the total_rules_checked computation: the conditional
expression takes its else arm without evaluating required_vars, so on any
loadable dataset the run completes with total_rules_checked = 0, an empty
error list, and pass = True. -/
theorem C2_non_rs_no_name_error (domain_path domain_code : String) (df : Dataset)
    (h : domain_code ≠ "RS") :
    validate_sdtm_domain true true domain_path domain_code (some df) =
      Except.ok (CheckerResult.completed true
        { domain := domain_code, file := domain_path, records := df.rows.length,
          total_rules_checked := 0, errors := 0, warnings := 0,
          error_details := [], warning_details := [] }) :=
  validate_non_rs_eq domain_path domain_code df h

/-- C2 witness: the amended statement instantiated at the concrete LB run. -/
theorem C2_non_rs_no_name_error_witness :
    ("LB" : String) ≠ "RS" ∧
    validate_sdtm_domain true true "outputs/sdtm/lb2.xpt" "LB" (some dfLB) =
      Except.ok (CheckerResult.completed true
        { domain := "LB", file := "outputs/sdtm/lb2.xpt", records := 1,
          total_rules_checked := 0, errors := 0, warnings := 0,
          error_details := [], warning_details := [] }) :=
  ⟨by decide, C2_non_rs_no_name_error "outputs/sdtm/lb2.xpt" "LB" dfLB (by decide)⟩

/-- C3: for every pair of an item reference and the variable record it was
built from in the fixed list, Mandatory is Yes exactly when the record's core
designation is Req, and any other designation yields Mandatory No. -/
theorem C3_mandatory_iff_core_req (r : ItemRef) (v : RSVar)
    (h : (r, v) ∈ create_rs_domain.ItemRef.zip rs_variables) :
    (r.Mandatory = "Yes" ↔ v.core = "Req") ∧ (v.core ≠ "Req" → r.Mandatory = "No") := by
  have hall : ∀ p ∈ create_rs_domain.ItemRef.zip rs_variables,
      (p.1.Mandatory = "Yes" ↔ p.2.core = "Req") ∧
      (p.2.core ≠ "Req" → p.1.Mandatory = "No") := by decide
  exact hall (r, v) h

/-- The first record of the fixed variable list, used as a concrete input. -/
def rsVarSTUDYID : RSVar :=
  { name := "STUDYID", label := "Study Identifier", datatype := "text",
    varLength := 12, core := "Req", origin := "Assigned",
    comment := "Unique identifier for the study" }

/-- C3 witness: the Mandatory rule checked at the first (STUDYID) pair. -/
theorem C3_mandatory_iff_core_req_witness :
    (mkItemRef 1 rsVarSTUDYID, rsVarSTUDYID) ∈ create_rs_domain.ItemRef.zip rs_variables ∧
    (((mkItemRef 1 rsVarSTUDYID).Mandatory = "Yes" ↔ rsVarSTUDYID.core = "Req") ∧
     (rsVarSTUDYID.core ≠ "Req" → (mkItemRef 1 rsVarSTUDYID).Mandatory = "No")) :=
  ⟨by decide, C3_mandatory_iff_core_req (mkItemRef 1 rsVarSTUDYID) rsVarSTUDYID (by decide)⟩

/-- C4: for every variable list of length N, the loop of create_rs_domain
emits exactly N item references whose order numbers are the dense 1-based
sequence 1..N in input order; in particular the assembled RS domain has one
reference per record of the fixed list. -/
theorem C4_itemref_count_and_order (vars : List RSVar) :
    (buildItemRefs 1 vars).length = vars.length ∧
    (buildItemRefs 1 vars).map (fun r => r.OrderNumber) = List.range' 1 vars.length ∧
    create_rs_domain.ItemRef.length = rs_variables.length := by
  refine ⟨buildItemRefs_length 1 vars, buildItemRefs_map_orderNumber 1 vars, ?_⟩
  decide

/-- C5: on a loaded RS dataset that has a DOMAIN column with at least one row
whose value is not RS, the run completes with pass = False and the error list
contains exactly one SDTM002 entry, however many rows violate the constraint. -/
theorem C5_wrong_domain_single_sdtm002 (df : Dataset) (domain_path : String)
    (hcol : "DOMAIN" ∈ df.cols)
    (hbad : ∃ r ∈ df.rows, rowVal r "DOMAIN" ≠ "RS") :
    ∃ rep,
      validate_sdtm_domain true true domain_path "RS" (some df) =
        Except.ok (CheckerResult.completed false rep) ∧
      (rep.error_details.filter (fun e => e.rule_id == "SDTM002")).length = 1 := by
  have hne : ¬ (∀ r ∈ df.rows, rowVal r "DOMAIN" = "RS") := by
    obtain ⟨r, hr, hv⟩ := hbad
    intro hall
    exact hv (hall r hr)
  have hdve : domainValueErrors df = [domainValueError] := by
    simp [domainValueErrors, hcol, hne]
  have herrs : rsChecks df "RS" = missingVarErrors df ++ [domainValueError] := by
    simp [rsChecks, hdve]
  have hie : (rsChecks df "RS").isEmpty = false := by
    rw [herrs]
    simp
  refine ⟨{ domain := "RS", file := domain_path, records := df.rows.length,
            total_rules_checked := 6, errors := (rsChecks df "RS").length,
            warnings := 0, error_details := rsChecks df "RS", warning_details := [] },
          ?_, ?_⟩
  · rw [validate_rs_eq df domain_path, hie]
  · show ((rsChecks df "RS").filter (fun e => e.rule_id == "SDTM002")).length = 1
    rw [herrs, List.filter_append]
    have h1 : (missingVarErrors df).filter (fun e => e.rule_id == "SDTM002") = [] := by
      refine List.filter_eq_nil_iff.mpr ?_
      intro e he
      have hid := missingVarErrors_not_sdtm002 df e he
      simpa using hid
    rw [h1]
    simp [domainValueError]

/-- A concrete RS dataset whose DOMAIN column holds two violating rows. -/
def dfRSbad : Dataset :=
  { cols := ["STUDYID", "DOMAIN", "USUBJID", "RSSEQ", "RSTESTCD", "RSTEST"]
  , rows := [[("DOMAIN", "RS")], [("DOMAIN", "XX")], [("DOMAIN", "XX")]] }

/-- C5 witness: the single-SDTM002 property at a dataset with two violating
rows. -/
theorem C5_wrong_domain_single_sdtm002_witness :
    ("DOMAIN" ∈ dfRSbad.cols ∧ ∃ r ∈ dfRSbad.rows, rowVal r "DOMAIN" ≠ "RS") ∧
    (∃ rep,
      validate_sdtm_domain true true "outputs/sdtm/rs_oak.xpt" "RS" (some dfRSbad) =
        Except.ok (CheckerResult.completed false rep) ∧
      (rep.error_details.filter (fun e => e.rule_id == "SDTM002")).length = 1) :=
  ⟨⟨by decide, by decide⟩,
   C5_wrong_domain_single_sdtm002 dfRSbad "outputs/sdtm/rs_oak.xpt" (by decide) (by decide)⟩

/-- C6: when the optional validation library is unavailable the checker
returns True immediately, for every file-existence state, every path and
domain code, and every load outcome, and writes no report. -/
theorem C6_core_unavailable_skips (fileOnDisk : Bool)
    (domain_path domain_code : String) (load : Option Dataset) :
    validate_sdtm_domain false fileOnDisk domain_path domain_code load =
      Except.ok CheckerResult.skippedTrue ∧
    CheckerResult.skippedTrue.passed = true ∧
    CheckerResult.skippedTrue.reportWritten = none :=
  ⟨rfl, rfl, rfl⟩

/-- C7: when the library is available but the dataset file does not exist,
the checker returns False immediately and no report is written, for every
path, domain code and load outcome. -/
theorem C7_missing_file_fails_no_report (domain_path domain_code : String)
    (load : Option Dataset) :
    validate_sdtm_domain true false domain_path domain_code load =
      Except.ok CheckerResult.failedNoReport ∧
    CheckerResult.failedNoReport.passed = false ∧
    CheckerResult.failedNoReport.reportWritten = none :=
  ⟨rfl, rfl, rfl⟩

/-- C8: an exception raised while loading the dataset is caught by the
checker's except clause, which returns False; and on every input the checker
returns a value rather than letting an exception propagate to the caller. -/
theorem C8_exception_caught_returns_false (domain_path domain_code : String) :
    (validate_sdtm_domain true true domain_path domain_code none =
       Except.ok CheckerResult.caughtFalse ∧
     CheckerResult.caughtFalse.passed = false ∧
     CheckerResult.caughtFalse.reportWritten = none) ∧
    (∀ (core_available fileOnDisk : Bool) (load : Option Dataset),
      ∃ r, validate_sdtm_domain core_available fileOnDisk domain_path domain_code load =
        Except.ok r) :=
  ⟨⟨rfl, rfl, rfl⟩,
   fun core_available fileOnDisk load =>
     validate_never_raises core_available fileOnDisk domain_path domain_code load⟩

/-- C9: on a loaded RS dataset with no DOMAIN column, the error list contains
the SDTM001 missing-variable entry for DOMAIN, and no SDTM002 entry, since
the fixed-value check is guarded by the column's presence. -/
theorem C9_missing_domain_column_no_sdtm002 (df : Dataset) (domain_path : String)
    (h : "DOMAIN" ∉ df.cols) :
    ∃ b rep,
      validate_sdtm_domain true true domain_path "RS" (some df) =
        Except.ok (CheckerResult.completed b rep) ∧
      missingVarError "DOMAIN" ∈ rep.error_details ∧
      ∀ e ∈ rep.error_details, e.rule_id ≠ "SDTM002" := by
  have hdve : domainValueErrors df = [] := by
    simp [domainValueErrors, h]
  have herrs : rsChecks df "RS" = missingVarErrors df := by
    simp [rsChecks, hdve]
  refine ⟨(rsChecks df "RS").isEmpty,
          { domain := "RS", file := domain_path, records := df.rows.length,
            total_rules_checked := 6, errors := (rsChecks df "RS").length,
            warnings := 0, error_details := rsChecks df "RS", warning_details := [] },
          validate_rs_eq df domain_path, ?_, ?_⟩
  · show missingVarError "DOMAIN" ∈ rsChecks df "RS"
    rw [herrs]
    simp only [missingVarErrors, List.mem_map]
    refine ⟨"DOMAIN", ?_, rfl⟩
    rw [List.mem_filter]
    refine ⟨by decide, ?_⟩
    simpa using h
  · intro e he
    rw [herrs] at he
    exact missingVarErrors_not_sdtm002 df e he

/-- A concrete RS dataset that lacks the DOMAIN column. -/
def dfNoDomain : Dataset :=
  { cols := ["STUDYID"], rows := [[("STUDYID", "RECIST-DEMO-001")]] }

/-- C9 witness: the missing-DOMAIN property at a concrete dataset. -/
theorem C9_missing_domain_column_no_sdtm002_witness :
    "DOMAIN" ∉ dfNoDomain.cols ∧
    (∃ b rep,
      validate_sdtm_domain true true "outputs/sdtm/rs_oak.xpt" "RS" (some dfNoDomain) =
        Except.ok (CheckerResult.completed b rep) ∧
      missingVarError "DOMAIN" ∈ rep.error_details ∧
      ∀ e ∈ rep.error_details, e.rule_id ≠ "SDTM002") :=
  ⟨by decide,
   C9_missing_domain_column_no_sdtm002 dfNoDomain "outputs/sdtm/rs_oak.xpt" (by decide)⟩

/-- C10: every run that writes a report writes an empty warning list with
warning count zero, and the returned boolean is exactly the emptiness of the
error list. -/
theorem C10_warnings_always_empty (core_available fileOnDisk : Bool)
    (domain_path domain_code : String) (load : Option Dataset)
    (b : Bool) (rep : Report)
    (h : validate_sdtm_domain core_available fileOnDisk domain_path domain_code load =
      Except.ok (CheckerResult.completed b rep)) :
    rep.warnings = 0 ∧ rep.warning_details = [] ∧ b = rep.error_details.isEmpty := by
  cases core_available with
  | false => simp [validate_sdtm_domain] at h
  | true =>
    cases fileOnDisk with
    | false => simp [validate_sdtm_domain] at h
    | true =>
      cases load with
      | none => simp [validate_sdtm_domain] at h
      | some df =>
        by_cases hc : domain_code = "RS"
        · subst hc
          rw [validate_rs_eq df domain_path] at h
          simp only [Except.ok.injEq, CheckerResult.completed.injEq] at h
          obtain ⟨hb, hrep⟩ := h
          subst hb
          subst hrep
          exact ⟨rfl, rfl, rfl⟩
        · rw [validate_non_rs_eq domain_path domain_code df hc] at h
          simp only [Except.ok.injEq, CheckerResult.completed.injEq] at h
          obtain ⟨hb, hrep⟩ := h
          subst hb
          subst hrep
          exact ⟨rfl, rfl, rfl⟩

/-- A fully conformant RS dataset: all required columns present and every
DOMAIN value equal to RS. -/
def dfRSgood : Dataset :=
  { cols := ["STUDYID", "DOMAIN", "USUBJID", "RSSEQ", "RSTESTCD", "RSTEST"]
  , rows := [[("STUDYID", "RECIST-DEMO-001"), ("DOMAIN", "RS"), ("USUBJID", "SUBJ-001"),
              ("RSSEQ", "1"), ("RSTESTCD", "OVR"), ("RSTEST", "Overall Response")]] }

/-- The report the checker writes for the conformant dataset. -/
def repRSgood : Report :=
  { domain := "RS", file := "outputs/sdtm/rs_oak.xpt", records := 1,
    total_rules_checked := 6, errors := 0, warnings := 0,
    error_details := [], warning_details := [] }

/-- C10 witness: the invariant applied to the completed conformant run. -/
theorem C10_warnings_always_empty_witness :
    validate_sdtm_domain true true "outputs/sdtm/rs_oak.xpt" "RS" (some dfRSgood) =
      Except.ok (CheckerResult.completed true repRSgood) ∧
    (repRSgood.warnings = 0 ∧ repRSgood.warning_details = [] ∧
      true = repRSgood.error_details.isEmpty) :=
  ⟨rfl, C10_warnings_always_empty true true "outputs/sdtm/rs_oak.xpt" "RS"
    (some dfRSgood) true repRSgood rfl⟩
